import Mathlib

/-!
Verification of the Marble chase-game core: the enemy pursuit AI state
machine (EnemyAI, bundled in SettingsContext.tsx), the player and enemy
per-frame motion controllers (PlayerSphere, EnemySphereV2.tsx), and the
sonar audio engine (SoundManager, bundled in VectorIndicator.tsx).

The embedding is shallow: JavaScript numbers are modelled as rationals,
and the transcendental primitives of the runtime (Math.sqrt, Math.cos,
Math.sin, Math.PI) are threaded through every definition as an abstract
`MathFns` record, so theorems hold for every interpretation of them.
Each Math.random() call site receives its drawn value through an explicit
`RandomSrc` record.  Mutation of the JS objects becomes explicit state
passing; each physics-engine command issued during a frame (set velocity,
apply torque, ...) is recorded in an output record, in program order.
-/

namespace Marble

/-- A 3-vector of rationals, the model of THREE.Vector3. -/
structure Vec3 where
  x : ℚ
  y : ℚ
  z : ℚ
deriving DecidableEq, Repr

namespace Vec3

def zero : Vec3 := ⟨0, 0, 0⟩

def add (a b : Vec3) : Vec3 := ⟨a.x + b.x, a.y + b.y, a.z + b.z⟩

def sub (a b : Vec3) : Vec3 := ⟨a.x - b.x, a.y - b.y, a.z - b.z⟩

def scale (a : Vec3) (s : ℚ) : Vec3 := ⟨a.x * s, a.y * s, a.z * s⟩

def dot (a b : Vec3) : ℚ := a.x * b.x + a.y * b.y + a.z * b.z

def lengthSq (a : Vec3) : ℚ := a.x * a.x + a.y * a.y + a.z * a.z

end Vec3

/-- The math primitives of the JS runtime, kept abstract: `sqrt`, `cos`,
`sin` stand for Math.sqrt, Math.cos, Math.sin and `pi` for Math.PI. -/
structure MathFns where
  sqrt : ℚ → ℚ
  cos : ℚ → ℚ
  sin : ℚ → ℚ
  pi : ℚ

/-- THREE.Vector3.length(): square root of the squared magnitude. -/
def vecLength (m : MathFns) (v : Vec3) : ℚ := m.sqrt v.lengthSq

/-- THREE.Vector3.normalize(): divideScalar(length || 1), so the zero
length falls back to a divisor of 1. -/
def vecNormalize (m : MathFns) (v : Vec3) : Vec3 :=
  let len := vecLength m v
  v.scale (1 / (if len = 0 then 1 else len))

/-- THREE.Vector3.distanceTo. -/
def vecDistance (m : MathFns) (a b : Vec3) : ℚ := vecLength m (a.sub b)

/-- THREE.MathUtils.mapLinear. -/
def mapLinear (x a1 a2 b1 b2 : ℚ) : ℚ := b1 + (x - a1) * (b2 - b1) / (a2 - a1)

/-- THREE.MathUtils.clamp. -/
def clampQ (x lo hi : ℚ) : ℚ := max lo (min hi x)

/-- One value per Math.random() call site of a single AI update:
`jitterX`/`jitterZ` feed the low-speed jitter of the first waypoint,
`angle i` feeds the randomised angle of spiral waypoint `i`, and
`restartX`/`restartZ` feed the randomised heading used when the search
state re-generates its waypoints. -/
structure RandomSrc where
  jitterX : ℚ
  jitterZ : ℚ
  angle : ℕ → ℚ
  restartX : ℚ
  restartZ : ℚ

/- ------------------------------------------------------------------
  Enemy AI state machine (EnemyAI module, SettingsContext.tsx
  lines 772-987 of the bundled file)
------------------------------------------------------------------- -/

inductive EnemyState where
  | idle
  | alert
  | chase
  | search
deriving DecidableEq, Repr

structure EnemyAIState where
  state : EnemyState
  stateTimer : ℚ
  lastKnownPlayerPos : Vec3
  searchWaypoints : List Vec3
  currentWaypointIndex : ℕ
deriving DecidableEq, Repr

def ALERT_DURATION : ℚ := 1 / 2

def SEARCH_DURATION : ℚ := 5

def VISION_DISTANCE : ℚ := 25

def WAYPOINT_REACH_DIST : ℚ := 2

/-- createAIState. -/
def createAIState : EnemyAIState :=
  { state := .idle
    stateTimer := 0
    lastKnownPlayerPos := Vec3.zero
    searchWaypoints := []
    currentWaypointIndex := 0 }

/-- canSeePlayer: distance-based visibility check. -/
def canSeePlayer (m : MathFns) (enemyPos playerPos : Vec3) : Bool :=
  vecDistance m enemyPos playerPos ≤ VISION_DISTANCE

/-- generateSearchWaypoints: first waypoint extrapolates the last known
position along the normalised player velocity by min(speed*2, 15) units,
jittered when speed < 1; waypoints 1..3 sit on a circle of radius 15
around the last known position at angles i*(PI/1.5) + random. -/
def generateSearchWaypoints (m : MathFns) (rnd : RandomSrc)
    (lastKnownPos playerVel : Vec3) : List Vec3 :=
  let speed := vecLength m playerVel
  let projectionDist := min (speed * 2) 15
  let projectedPos := lastKnownPos.add ((vecNormalize m playerVel).scale projectionDist)
  let projectedPos :=
    if speed < 1 then
      projectedPos.add ⟨(rnd.jitterX - 1/2) * 5, 0, (rnd.jitterZ - 1/2) * 5⟩
    else projectedPos
  let searchRadius : ℚ := 15
  let rest := (List.range 3).map (fun j =>
    let i : ℕ := j + 1
    let angle := (i : ℚ) * (m.pi / (3/2)) + rnd.angle i * 1
    Vec3.mk (lastKnownPos.x + m.cos angle * searchRadius) lastKnownPos.y
      (lastKnownPos.z + m.sin angle * searchRadius))
  projectedPos :: rest

/-- updateAIState, as a function from the previous state record to the
next one (the TS function mutates `ai` in place and returns `ai.state`).
The timer is advanced by `delta` first, then the transition logic of the
current state runs. -/
def updateAIState (m : MathFns) (rnd : RandomSrc) (ai : EnemyAIState)
    (playerVisible : Bool) (playerPos : Vec3) (delta : ℚ) (playerVel : Vec3) :
    EnemyAIState :=
  let ai := { ai with stateTimer := ai.stateTimer + delta }
  match ai.state with
  | .idle =>
      if playerVisible then
        { ai with state := .alert, stateTimer := 0, lastKnownPlayerPos := playerPos }
      else ai
  | .alert =>
      let ai :=
        if !playerVisible then
          { ai with state := .search, stateTimer := 0
                    searchWaypoints := generateSearchWaypoints m rnd ai.lastKnownPlayerPos playerVel }
        else if ALERT_DURATION ≤ ai.stateTimer then
          { ai with state := .chase, stateTimer := 0 }
        else ai
      { ai with lastKnownPlayerPos := playerPos }
  | .chase =>
      if playerVisible then
        { ai with lastKnownPlayerPos := playerPos }
      else
        { ai with state := .search, stateTimer := 0
                  searchWaypoints := generateSearchWaypoints m rnd ai.lastKnownPlayerPos playerVel
                  currentWaypointIndex := 0 }
  | .search =>
      if playerVisible then
        { ai with state := .chase, stateTimer := 0, lastKnownPlayerPos := playerPos }
      else if SEARCH_DURATION ≤ ai.stateTimer then
        { ai with stateTimer := 0
                  searchWaypoints := generateSearchWaypoints m rnd ai.lastKnownPlayerPos
                    ⟨rnd.restartX - 1/2, 0, rnd.restartZ - 1/2⟩
                  currentWaypointIndex := 0 }
      else ai

/-- getSpeedMultiplier. -/
def getSpeedMultiplier : EnemyState → ℚ
  | .idle => 0
  | .alert => 1/10
  | .chase => 3/2
  | .search => 6/5

/-- getMovementTarget; the search branch mutates `currentWaypointIndex`
(wrapping modulo the waypoint count when the current waypoint is within
reach), so the function returns the target together with the updated
state record. -/
def getMovementTarget (m : MathFns) (ai : EnemyAIState)
    (enemyPos playerPos playerVel : Vec3) : Vec3 × EnemyAIState :=
  match ai.state with
  | .idle => (enemyPos, ai)
  | .alert => (playerPos, ai)
  | .chase =>
      let dist := vecDistance m enemyPos playerPos
      let predictionTime := min (dist / 15) (3/2)
      (playerPos.add (playerVel.scale predictionTime), ai)
  | .search =>
      if 0 < ai.searchWaypoints.length then
        let wp := ai.searchWaypoints.getD ai.currentWaypointIndex Vec3.zero
        let newIdx :=
          if vecDistance m enemyPos wp < WAYPOINT_REACH_DIST then
            (ai.currentWaypointIndex + 1) % ai.searchWaypoints.length
          else ai.currentWaypointIndex
        (ai.searchWaypoints.getD newIdx Vec3.zero, { ai with currentWaypointIndex := newIdx })
      else (ai.lastKnownPlayerPos, ai)

/- ------------------------------------------------------------------
  Traces of the AI state machine
------------------------------------------------------------------- -/

/-- The inputs of one updateAIState call. -/
structure UpdateIn where
  visible : Bool
  playerPos : Vec3
  delta : ℚ
  playerVel : Vec3
  rnd : RandomSrc

def stepUpdate (m : MathFns) (ai : EnemyAIState) (u : UpdateIn) : EnemyAIState :=
  updateAIState m u.rnd ai u.visible u.playerPos u.delta u.playerVel

def runUpdates (m : MathFns) (ai : EnemyAIState) (us : List UpdateIn) : EnemyAIState :=
  us.foldl (stepUpdate m) ai

/-- An interleaving event: either an updateAIState call or a
getMovementTarget query (which may advance the waypoint index). -/
inductive AIEvent where
  | update (u : UpdateIn)
  | query (enemyPos playerPos playerVel : Vec3)

def stepEvent (m : MathFns) (ai : EnemyAIState) : AIEvent → EnemyAIState
  | .update u => stepUpdate m ai u
  | .query e p v => (getMovementTarget m ai e p v).2

def runEvents (m : MathFns) (ai : EnemyAIState) (es : List AIEvent) : EnemyAIState :=
  es.foldl (stepEvent m) ai

/- ------------------------------------------------------------------
  Concrete math interpretation used by witnesses
------------------------------------------------------------------- -/

/-- A computable rational square-root approximation (exact on perfect
squares), standing in for Math.sqrt in concrete witness runs. -/
def sqrtQ (q : ℚ) : ℚ :=
  if q ≤ 0 then 0 else (Nat.sqrt (q.num.toNat * q.den) : ℚ) / (q.den : ℚ)

/-- A computable stand-in for Math.cos in concrete witness runs. -/
def cosQ (x : ℚ) : ℚ := 1 - x ^ 2 / 2

/-- A computable stand-in for Math.sin in concrete witness runs. -/
def sinQ (x : ℚ) : ℚ := x

/-- The concrete math interpretation used by witnesses. -/
def mQ : MathFns := { sqrt := sqrtQ, cos := cosQ, sin := sinQ, pi := 355/113 }

/-- A fixed random draw used by witnesses. -/
def rndHalf : RandomSrc :=
  { jitterX := 1/2, jitterZ := 1/2, angle := fun _ => 1/2, restartX := 1/2, restartZ := 1/2 }

/- ------------------------------------------------------------------
  Player motion controller (PlayerSphere useFrame body)
------------------------------------------------------------------- -/

inductive GameState where
  | start
  | setup
  | countdown
  | playing
  | gameover
  | won
deriving DecidableEq, Repr

/-- The held-key set of the player. -/
structure Keys where
  w : Bool
  a : Bool
  s : Bool
  d : Bool
  space : Bool
deriving DecidableEq, Repr

def noKeys : Keys := ⟨false, false, false, false, false⟩

/-- The per-frame inputs of the player controller: the frame delta, the
React/session state visible to the closure, the streamed physics reads
(velocity, angular velocity, world position), the internal refs carried
between frames, the outcome of the downward ground raycast against the
scene (external physics collaborator), and the settings tunables. -/
structure PlayerIn where
  delta : ℚ
  timeSinceInput : ℚ
  isPaused : Bool
  refPresent : Bool
  gameState : GameState
  keys : Keys
  velocity : Vec3
  angularVelocity : Vec3
  lastGoodVelocity : Vec3
  grounded : Bool
  canJump : Bool
  position : Vec3
  moveSpeed : ℚ
  playerAirControl : ℚ
  jumpForce : ℚ

/-- The physics commands issued by one player frame, in program order,
plus the refs the frame writes for the next frame. -/
structure PlayerOut where
  velocitySets : List Vec3
  angularVelocitySets : List Vec3
  torque : Option Vec3
  impulse : Option Vec3
  positionSets : List Vec3
  lastGoodVelocity : Vec3
  pauseRequested : Bool
deriving Repr

/-- The torque computed by a playing player frame: signed key components,
direction-change boost, air-control scaling and the braking counter
torque. -/
def playerTorque (m : MathFns) (inp : PlayerIn) : Vec3 :=
  let ta := inp.moveSpeed
  let torque := Vec3.mk
    ((if inp.keys.s then ta else 0) - (if inp.keys.w then ta else 0)) 0
    ((if inp.keys.a then ta else 0) - (if inp.keys.d then ta else 0))
  -- direction change boost
  let torque :=
    if 0 < torque.lengthSq then
      let angSpeed := vecLength m inp.angularVelocity
      if 2 < angSpeed then
        let alignment := (vecNormalize m torque).dot (vecNormalize m inp.angularVelocity)
        if alignment < -(3/10) then
          torque.scale (mapLinear alignment (-1) (-(3/10)) 5 2)
        else torque
      else torque
    else torque
  -- air control
  let controlMultiplier := if inp.grounded then 1 else inp.playerAirControl
  let torque := torque.scale controlMultiplier
  -- braking: no input, grounded, significant angular speed
  if torque.lengthSq = 0 ∧ inp.grounded ∧ 1/10 < vecLength m inp.angularVelocity then
    Vec3.mk (-inp.angularVelocity.x * 2) torque.y (-inp.angularVelocity.z * 2)
  else torque

/-- The PlayerSphere per-frame update, through the fall-off-world reset.
The trailing camera/visual smoothing issues no physics commands and is
omitted.  MAX_DELTA is 0.05s; a frame whose raw delta exceeds it is a
hitch, and the hitch branch restores the last good velocity only when the
x component of the stored vector is nonzero. -/
def playerFrame (m : MathFns) (inp : PlayerIn) : PlayerOut :=
  let isHitch := 1/20 < inp.delta
  let pauseRequested := !inp.isPaused && decide (10000 < inp.timeSinceInput)
  let none3 : Option Vec3 := none
  if inp.isPaused then
    ⟨[], [], none3, none3, [], inp.lastGoodVelocity, pauseRequested⟩
  else if !inp.refPresent then
    ⟨[], [], none3, none3, [], inp.lastGoodVelocity, pauseRequested⟩
  else
    -- velocity preservation across hitches
    let velocitySets :=
      if isHitch ∧ inp.lastGoodVelocity.x ≠ 0 then
        [Vec3.mk inp.lastGoodVelocity.x inp.velocity.y inp.lastGoodVelocity.z]
      else ([] : List Vec3)
    let lastGood := if ¬isHitch then inp.velocity else inp.lastGoodVelocity
    if inp.gameState ≠ .playing then
      if inp.gameState = .setup ∨ inp.gameState = .countdown then
        ⟨velocitySets ++ [Vec3.mk 0 inp.velocity.y 0], [Vec3.zero],
          none3, none3, [], lastGood, pauseRequested⟩
      else
        ⟨velocitySets, [], none3, none3, [], lastGood, pauseRequested⟩
    else
      -- jump
      let impulse :=
        if inp.keys.space ∧ inp.canJump ∧ inp.grounded then
          some (Vec3.mk 0 inp.jumpForce 0)
        else none3
      -- reset if fell off world
      let fell := inp.position.y < -20
      ⟨(if fell then velocitySets ++ [Vec3.zero] else velocitySets),
        (if fell then [Vec3.zero] else []),
        some (playerTorque m inp), impulse,
        (if fell then [Vec3.mk 0 5 0] else []),
        lastGood, pauseRequested⟩

/- ------------------------------------------------------------------
  Enemy motion controller (EnemySphereV2 useFrame body)
------------------------------------------------------------------- -/

/-- The per-frame inputs of the enemy controller.  Raycast outcomes
against the scene (occlusion of the line of sight, the obstacle hit of
the avoidance ray, the ground hit) and the due flags of the wall-clock
throttles are external inputs, like the streamed physics reads. -/
structure EnemyIn where
  delta : ℚ
  isPaused : Bool
  gameState : GameState
  refsPresent : Bool
  currentTime : ℚ
  playerPos : Vec3
  position : Vec3
  velocity : Vec3
  playerPrevPos : Vec3
  playerVelEst : Vec3
  aiTickDue : Bool
  occluded : Bool
  avoidHit : Bool
  groundedHit : Bool
  pingDue : Bool
  nextPingTime : ℚ
  ai : EnemyAIState
  cachedTarget : Vec3
  lastAvoidanceForce : Vec3
  lastCanSee : Bool
  rnd : RandomSrc
  enemySpeed : ℚ
  enemyAirControl : ℚ
  aiTickRate : ℚ

/-- The commands issued by one enemy frame plus the refs it writes. -/
structure EnemyOut where
  velocitySets : List Vec3
  angularVelocitySets : List Vec3
  force : Option Vec3
  positionSets : List Vec3
  gameOver : Bool
  bonkPlayed : Bool
  pingPlayed : Bool
  alertPlayed : Bool
  lostPlayed : Bool
  ai : EnemyAIState
  playerPrevPos : Vec3
  playerVelEst : Vec3
  cachedTarget : Vec3
  lastAvoidanceForce : Vec3
  lastCanSee : Bool
  nextPingTime : ℚ
deriving Repr

/-- Rotation about the +Y axis by `theta`, the effect of
applyAxisAngle(up, theta) on a vector. -/
def rotateY (m : MathFns) (theta : ℚ) (v : Vec3) : Vec3 :=
  ⟨v.x * m.cos theta + v.z * m.sin theta, v.y, -v.x * m.sin theta + v.z * m.cos theta⟩

/-- An EnemyOut that issues no commands and keeps every ref unchanged. -/
def enemyNoop (inp : EnemyIn) : EnemyOut :=
  ⟨[], [], none, [], false, false, false, false, false, inp.ai, inp.playerPrevPos,
    inp.playerVelEst, inp.cachedTarget, inp.lastAvoidanceForce, inp.lastCanSee,
    inp.nextPingTime⟩

/-- The EnemySphereV2 per-frame update: pause/game-state guards, player
velocity estimation, the velocity soft cap, the throttled AI tick (line
of sight, state machine, movement target, obstacle avoidance), ground
check, force application, sonar ping, fall-off-world reset and the
contact game-over signal. -/
def enemyFrame (m : MathFns) (inp : EnemyIn) : EnemyOut :=
  let clampedDelta := min inp.delta (1/20)
  if inp.isPaused then enemyNoop inp
  else if inp.gameState ≠ .playing then
    if inp.gameState = .setup ∨ inp.gameState = .countdown then
      { enemyNoop inp with
          velocitySets := [Vec3.mk 0 inp.velocity.y 0]
          angularVelocitySets := [Vec3.zero] }
    else enemyNoop inp
  else if !inp.refsPresent then enemyNoop inp
  else
    -- 1. player velocity estimate (lerp toward instantaneous velocity)
    let playerVelEst :=
      if 0 < clampedDelta then
        let instVel := ((inp.playerPos.sub inp.playerPrevPos).scale (1 / clampedDelta))
        inp.playerVelEst.add ((instVel.sub inp.playerVelEst).scale (1/10))
      else inp.playerVelEst
    let playerPrevPos := inp.playerPos
    -- velocity cap: squared magnitude against MAX_VELOCITY * MAX_VELOCITY
    let velocitySets :=
      if 25 * 25 < inp.velocity.lengthSq then
        [Vec3.mk (inp.velocity.x * (19/20)) inp.velocity.y (inp.velocity.z * (19/20))]
      else ([] : List Vec3)
    -- throttled AI tick
    let distToPlayer := vecLength m (inp.playerPos.sub inp.position)
    let canSee := distToPlayer < 40 ∧ ¬inp.occluded
    let prevState := inp.ai.state
    let aiAfter :=
      if inp.aiTickDue then
        updateAIState m inp.rnd inp.ai (decide canSee) inp.playerPos (1 / inp.aiTickRate) playerVelEst
      else inp.ai
    let alertPlayed := inp.aiTickDue ∧ prevState = .idle ∧ aiAfter.state = .alert
    let lostPlayed := inp.aiTickDue ∧ prevState = .chase ∧ aiAfter.state = .search
    let targetQuery := getMovementTarget m aiAfter inp.position inp.playerPos playerVelEst
    let cachedTarget := if inp.aiTickDue then targetQuery.1 else inp.cachedTarget
    let aiAfter := if inp.aiTickDue then targetQuery.2 else aiAfter
    let lastCanSee := if inp.aiTickDue then decide canSee else inp.lastCanSee
    -- obstacle avoidance (throttled with the AI tick)
    let desiredDirT := vecNormalize m (cachedTarget.sub inp.position)
    let currentVelDir := vecNormalize m inp.velocity
    let checkDir := if 1 < vecLength m inp.velocity then currentVelDir else desiredDirT
    let lastAvoidanceForce :=
      if inp.aiTickDue then
        if inp.avoidHit then (rotateY m (m.pi / 3) checkDir).scale 20 else Vec3.zero
      else inp.lastAvoidanceForce
    -- 4. ground check, 5. movement force (every frame)
    let controlMultiplier := if inp.groundedHit then 1 else inp.enemyAirControl
    let speedMultiplier := getSpeedMultiplier aiAfter.state
    let dir :=
      if aiAfter.state = .chase ∨ aiAfter.state = .alert then
        vecNormalize m (inp.playerPos.sub inp.position)
      else
        vecNormalize m (cachedTarget.sub inp.position)
    let velMag := vecLength m inp.velocity
    let velDir := vecNormalize m inp.velocity
    let alignment := velDir.dot dir
    let force := dir.add lastAvoidanceForce
    let force :=
      if alignment < 3/10 ∧ 2 < velMag then
        let brakingStrength := (1 - alignment) * velMag * (1/2)
        Vec3.mk (force.x - velDir.x * brakingStrength) force.y
          (force.z - velDir.z * brakingStrength)
      else force
    let speed := inp.enemySpeed * speedMultiplier * 15 * controlMultiplier
    let forceCmd := some (Vec3.mk (force.x * speed) 0 (force.z * speed))
    -- 6. sonar ping
    let dist := vecDistance m inp.position inp.playerPos
    let pingPlayed := inp.pingDue
    let nextPingTime :=
      if inp.pingDue then
        inp.currentTime + clampQ (mapLinear dist 5 50 (1/5) (3/2)) (1/5) (3/2)
      else inp.nextPingTime
    -- reset if fell off world (position set and linear velocity zeroed)
    let fell := inp.position.y < -20
    let positionSets := if fell then [Vec3.mk 10 20 10] else []
    let velocitySets := if fell then velocitySets ++ [Vec3.zero] else velocitySets
    -- contact: game over
    let contact := dist < 11/10
    ⟨velocitySets, [], forceCmd, positionSets, contact, contact, pingPlayed,
      alertPlayed, lostPlayed, aiAfter, playerPrevPos, playerVelEst, cachedTarget,
      lastAvoidanceForce, lastCanSee, nextPingTime⟩

/- ------------------------------------------------------------------
  Sonar audio engine (SoundManager, bundled in VectorIndicator.tsx)
------------------------------------------------------------------- -/

inductive OscType where
  | sine
  | square
  | triangle
  | sawtooth
deriving DecidableEq, Repr

/-- The settings record received by SoundManager.updateSonar.  It mirrors
the declared parameter type of the method, which does NOT include the
audioSolidDistance tunable of the Settings interface. -/
structure SonarSettings where
  masterVolume : ℚ
  audioPitchEnabled : Bool
  audioRateEnabled : Bool
  audioClosingVolume : ℚ
  audioOpeningVolume : ℚ
  audioPingVolume : ℚ
  audioToneVolume : ℚ
  audioPingStyle : OscType
  audioToneStyle : OscType
  audioClosingMaxDist : ℚ
  audioOpeningMaxDist : ℚ
  audioClosingPitch : ℚ
  audioOpeningPitch : ℚ
deriving DecidableEq, Repr

structure SonarDebugMode where
  closingEnabled : Bool
  openingEnabled : Bool
deriving DecidableEq, Repr

/-- The manager state read by updateSonar: the soft-disable flag and the
presence of the audio-context, oscillator and gain collaborators. -/
structure SonarMgr where
  enabled : Bool
  ctxPresent : Bool
  oscPresent : Bool
  gainPresent : Bool
deriving DecidableEq, Repr

/-- The WebAudio commands issued by one updateSonar call: the commanded
oscillator type of the branch taken (the source assigns it only when it
differs, which commands the same resulting type), the scheduled frequency
and gain targets with their time constants, whether scheduled gain values
were cancelled, and the near-field rearming of nextBeepTime. -/
structure SonarCmds where
  oscTypeSet : Option OscType
  freqTarget : Option (ℚ × ℚ)
  gainTarget : Option (ℚ × ℚ)
  gainCancelled : Bool
  nextBeepTimeSet : Option ℚ
deriving DecidableEq, Repr

/-- The SonarCmds of a call that issued nothing. -/
def sonarNoop : SonarCmds := ⟨none, none, none, false, none⟩

/-- SoundManager.updateSonar.  The near-field threshold is the local
constant SOLID_THRESHOLD = 10. -/
def updateSonar (mgr : SonarMgr) (distance closingSpeed : ℚ)
    (s : SonarSettings) (debugMode : Option SonarDebugMode) (now : ℚ) :
    SonarCmds :=
  if ¬(mgr.enabled ∧ mgr.ctxPresent ∧ mgr.oscPresent ∧ mgr.gainPresent) then
    sonarNoop
  else
    let SOLID_THRESHOLD : ℚ := 10
    -- 1. closing vs opening branch
    let isClosing := 0 < closingSpeed
    -- 2. branch parameters
    let maxDist := if isClosing then s.audioClosingMaxDist else s.audioOpeningMaxDist
    let volumeMult :=
      if isClosing then
        match debugMode with
        | some dm => if !dm.closingEnabled then 0 else s.audioClosingVolume
        | none => s.audioClosingVolume
      else
        match debugMode with
        | some dm => if !dm.openingEnabled then 0 else s.audioOpeningVolume
        | none => s.audioOpeningVolume
    let basePitch := if isClosing then s.audioClosingPitch else s.audioOpeningPitch
    let globalMult := volumeMult
    if globalMult ≤ 1/1000 then
      { sonarNoop with gainTarget := some (0, 1/10) }
    else if distance < SOLID_THRESHOLD then
      -- 3. solid tone override
      let solidPitch := 1500 + (1 - distance / SOLID_THRESHOLD) * 500
      let finalVol := s.audioToneVolume * globalMult
      { oscTypeSet := some s.audioToneStyle
        freqTarget := some (solidPitch, 1/20)
        gainTarget := some (finalVol, 1/10)
        gainCancelled := true
        nextBeepTimeSet := some (now + 1/10) }
    else
      -- 4. standard hum
      let pitch :=
        if s.audioPitchEnabled then
          let distFactor := max 0 (1 - distance / maxDist)
          basePitch + distFactor ^ 2 * 1200
        else basePitch
      let distVol := (max 0 (1 - distance / maxDist)) ^ 2
      let finalVol := distVol * s.audioToneVolume * globalMult
      { oscTypeSet := some s.audioPingStyle
        freqTarget := some (pitch, 1/10)
        gainTarget := some (finalVol, 1/10)
        gainCancelled := false
        nextBeepTimeSet := none }

/-- The default audio settings of the repository, as a SonarSettings
record (DEFAULT_SETTINGS in SettingsContext.tsx). -/
def defaultSonarSettings : SonarSettings :=
  { masterVolume := 1/2
    audioPitchEnabled := true
    audioRateEnabled := true
    audioClosingVolume := 1
    audioOpeningVolume := 3/10
    audioPingVolume := 3/5
    audioToneVolume := 1/2
    audioPingStyle := .sine
    audioToneStyle := .triangle
    audioClosingMaxDist := 150
    audioOpeningMaxDist := 150
    audioClosingPitch := 300
    audioOpeningPitch := 200 }

/-- The methods defined by the SoundManager class, transcribed from the
class body. -/
def soundManagerMethods : List String :=
  ["init", "setEnabled", "setMasterVolume", "resume", "playBeep",
   "playCountdownBeep", "playGoSignal", "playTagSound", "playAlertSound",
   "playLostSound", "playBonkSound", "playPing", "startSonar", "stopSonar",
   "updateSonar"]

/-- The soundManager methods invoked by the GameLogic per-frame callback
once gameState is playing and both position refs are initialised,
transcribed from its useFrame body. -/
def gameLogicFrameAudioCalls : List String := ["updateSonar", "updateListener"]

/-- A JS method dispatch on the soundManager singleton succeeds exactly
when the SoundManager class defines the method; dispatching a missing
method throws a TypeError. -/
def gameLogicFrameFatal : Bool :=
  gameLogicFrameAudioCalls.any (fun nm => !(soundManagerMethods.contains nm))

/- ------------------------------------------------------------------
  Concrete fixtures used by witnesses and counterexamples
------------------------------------------------------------------- -/

/-- A baseline playing-state player frame input. -/
def basePlayerIn : PlayerIn :=
  { delta := 1/100
    timeSinceInput := 0
    isPaused := false
    refPresent := true
    gameState := .playing
    keys := noKeys
    velocity := Vec3.zero
    angularVelocity := Vec3.zero
    lastGoodVelocity := Vec3.zero
    grounded := true
    canJump := true
    position := ⟨0, 1, 0⟩
    moveSpeed := 8
    playerAirControl := 1/10
    jumpForce := 5 }

/-- A baseline playing-state enemy frame input with the AI tick not due. -/
def baseEnemyIn : EnemyIn :=
  { delta := 1/100
    isPaused := false
    gameState := .playing
    refsPresent := true
    currentTime := 1
    playerPos := ⟨30, 0, 0⟩
    position := Vec3.zero
    velocity := Vec3.zero
    playerPrevPos := ⟨30, 0, 0⟩
    playerVelEst := Vec3.zero
    aiTickDue := false
    occluded := false
    avoidHit := false
    groundedHit := true
    pingDue := false
    nextPingTime := 2
    ai := createAIState
    cachedTarget := Vec3.zero
    lastAvoidanceForce := Vec3.zero
    lastCanSee := false
    rnd := rndHalf
    enemySpeed := 2
    enemyAirControl := 0
    aiTickRate := 10 }

/-- The structural invariant of the AI state: the waypoint list is either
a generated 4-element list or still the initial empty list (in which case
the machine has not entered search), and the waypoint index is below 4. -/
def InvAI (ai : EnemyAIState) : Prop :=
  (ai.searchWaypoints.length = 4 ∨ (ai.searchWaypoints = [] ∧ ai.state ≠ .search)) ∧
  ai.currentWaypointIndex < 4

/-- An AI state sitting in alert just before the dwell elapses. -/
def aiAlert : EnemyAIState :=
  { state := .alert, stateTimer := 2/5, lastKnownPlayerPos := ⟨3, 0, 0⟩
    searchWaypoints := [], currentWaypointIndex := 0 }

/-- An AI state sitting in search with the search duration elapsed. -/
def aiSearchT : EnemyAIState :=
  { state := .search, stateTimer := 5, lastKnownPlayerPos := ⟨3, 0, 0⟩
    searchWaypoints := generateSearchWaypoints mQ rndHalf ⟨3, 0, 0⟩ Vec3.zero
    currentWaypointIndex := 1 }

/-- An update tick that sees the player. -/
def uVis : UpdateIn :=
  { visible := true, playerPos := ⟨1, 0, 0⟩, delta := 1/10
    playerVel := Vec3.zero, rnd := rndHalf }

/-- An update tick that does not see the player. -/
def uInvis : UpdateIn :=
  { visible := false, playerPos := ⟨1, 0, 0⟩, delta := 1/10
    playerVel := Vec3.zero, rnd := rndHalf }

/-- A trace that reaches search: idle is alerted, then loses sight. -/
def pEvents : List AIEvent := [.update uVis, .update uInvis]

/-- A continuation trace with a movement-target query and more ticks. -/
def qEvents : List AIEvent :=
  [.query Vec3.zero ⟨1, 0, 0⟩ Vec3.zero, .update uInvis]

/-- A non-hitch player frame whose velocity has x = 0 but z nonzero. -/
def pNonHitchIn : PlayerIn := { basePlayerIn with velocity := ⟨0, 3, 5⟩ }

/-- A hitch frame following pNonHitchIn, carrying its recorded last-good
velocity. -/
def pHitchIn : PlayerIn :=
  { basePlayerIn with
      delta := 1/10
      velocity := ⟨0, -2, 0⟩
      lastGoodVelocity := ⟨0, 3, 5⟩ }

/-- A non-hitch player frame with a nonzero x velocity component. -/
def pNonHitchIn2 : PlayerIn := { basePlayerIn with velocity := ⟨2, 3, 5⟩ }

/-- A hitch frame following pNonHitchIn2. -/
def pHitchIn2 : PlayerIn :=
  { basePlayerIn with
      delta := 1/10
      velocity := ⟨0, -2, 0⟩
      lastGoodVelocity := ⟨2, 3, 5⟩ }

/-- A coasting grounded player frame spinning purely about the vertical
axis. -/
def pSpinYIn : PlayerIn := { basePlayerIn with angularVelocity := ⟨0, 1, 0⟩ }

/-- A coasting grounded player frame with horizontal angular velocity. -/
def pSpinXZIn : PlayerIn := { basePlayerIn with angularVelocity := ⟨3, 0, 4⟩ }

/-- A player frame below the world floor. -/
def pFallIn : PlayerIn := { basePlayerIn with position := ⟨0, -25, 0⟩ }

/-- An enemy frame whose speed is above 5 but below the 25 units/s cap. -/
def eCapLowIn : EnemyIn := { baseEnemyIn with velocity := ⟨6, 0, 0⟩ }

/-- An enemy frame moving faster than the 25 units/s cap. -/
def eCapHighIn : EnemyIn := { baseEnemyIn with velocity := ⟨10, 15, 30⟩ }

/-- An enemy frame below the world floor. -/
def eFallIn : EnemyIn :=
  { baseEnemyIn with
      position := ⟨0, -21, 0⟩
      playerPos := ⟨0, -21, 40⟩
      playerPrevPos := ⟨0, -21, 40⟩ }

/-- A fully initialised, enabled sound manager. -/
def sonarMgrOn : SonarMgr := ⟨true, true, true, true⟩

end Marble

/-! ## Theorems -/

namespace Marble

/-- Every generated waypoint set has exactly 4 entries. -/
theorem generateSearchWaypoints_length (m : MathFns) (rnd : RandomSrc)
    (p v : Vec3) : (generateSearchWaypoints m rnd p v).length = 4 := by
  simp [generateSearchWaypoints]

theorem sqrtQ_zero : sqrtQ 0 = 0 := by simp [sqrtQ]

theorem sqrtQ_one : sqrtQ 1 = 1 := by
  have h : Nat.sqrt 1 = 1 := by
    rw [show (1 : ℕ) = 1 * 1 by norm_num, Nat.sqrt_eq]
  norm_num [sqrtQ, h, Int.toNat_ofNat]

theorem sqrtQ_25 : sqrtQ 25 = 5 := by
  have h : Nat.sqrt 25 = 5 := by
    rw [show (25 : ℕ) = 5 * 5 by norm_num, Nat.sqrt_eq]
  have ht : Int.toNat 25 = 25 := rfl
  norm_num [sqrtQ, ht, h]

theorem sqrtQ_36 : sqrtQ 36 = 6 := by
  have h : Nat.sqrt 36 = 6 := by
    rw [show (36 : ℕ) = 6 * 6 by norm_num, Nat.sqrt_eq]
  have ht : Int.toNat 36 = 36 := rfl
  norm_num [sqrtQ, ht, h]

theorem sqrtQ_441 : sqrtQ 441 = 21 := by
  have h : Nat.sqrt 441 = 21 := by
    rw [show (441 : ℕ) = 21 * 21 by norm_num, Nat.sqrt_eq]
  have ht : Int.toNat 441 = 441 := rfl
  norm_num [sqrtQ, ht, h]

theorem sqrtQ_900 : sqrtQ 900 = 30 := by
  have h : Nat.sqrt 900 = 30 := by
    rw [show (900 : ℕ) = 30 * 30 by norm_num, Nat.sqrt_eq]
  have ht : Int.toNat 900 = 900 := rfl
  norm_num [sqrtQ, ht, h]

theorem sqrtQ_1225 : sqrtQ 1225 = 35 := by
  have h : Nat.sqrt 1225 = 35 := by
    rw [show (1225 : ℕ) = 35 * 35 by norm_num, Nat.sqrt_eq]
  have ht : Int.toNat 1225 = 1225 := rfl
  norm_num [sqrtQ, ht, h]

theorem sqrtQ_1600 : sqrtQ 1600 = 40 := by
  have h : Nat.sqrt 1600 = 40 := by
    rw [show (1600 : ℕ) = 40 * 40 by norm_num, Nat.sqrt_eq]
  have ht : Int.toNat 1600 = 1600 := rfl
  norm_num [sqrtQ, ht, h]

/-- Claim C1: on an alert tick, if the player is visible and the state
timer (the per-tick deltas accumulated since entering alert, including
the current tick) has reached 0.5s, the machine transitions to chase and
resets the timer to 0; if the player is not visible the machine
transitions to search on that same tick and installs a freshly generated
waypoint set. -/
theorem alert_transition_spec (m : MathFns) (rnd : RandomSrc)
    (ai : EnemyAIState) (h : ai.state = .alert) (visible : Bool)
    (playerPos : Vec3) (delta : ℚ) (playerVel : Vec3) :
    (visible = true → 1/2 ≤ ai.stateTimer + delta →
      (updateAIState m rnd ai visible playerPos delta playerVel).state = .chase ∧
      (updateAIState m rnd ai visible playerPos delta playerVel).stateTimer = 0) ∧
    (visible = false →
      (updateAIState m rnd ai visible playerPos delta playerVel).state = .search ∧
      (updateAIState m rnd ai visible playerPos delta playerVel).stateTimer = 0 ∧
      (updateAIState m rnd ai visible playerPos delta playerVel).searchWaypoints =
        generateSearchWaypoints m rnd ai.lastKnownPlayerPos playerVel) := by
  obtain ⟨s, t, lk, wps, idx⟩ := ai
  cases h
  constructor
  · rintro rfl hle
    simp only [EnemyAIState.stateTimer] at hle
    rw [one_div] at hle
    simp [updateAIState, ALERT_DURATION, hle]
  · rintro rfl
    simp [updateAIState]

/-- Witness for C1 at a concrete alert state, for both signal values. -/
theorem alert_transition_spec_witness :
    (updateAIState mQ rndHalf aiAlert true Vec3.zero (1/5) Vec3.zero).state = .chase ∧
    (updateAIState mQ rndHalf aiAlert false Vec3.zero (1/5) Vec3.zero).state = .search :=
  ⟨((alert_transition_spec mQ rndHalf aiAlert rfl true Vec3.zero (1/5) Vec3.zero).1
      rfl (by norm_num [aiAlert])).1,
   ((alert_transition_spec mQ rndHalf aiAlert rfl false Vec3.zero (1/5) Vec3.zero).2
      rfl).1⟩

/-- A search-state tick that does not see the player stays in search. -/
theorem search_step_stays (m : MathFns) (ai : EnemyAIState) (u : UpdateIn)
    (hai : ai.state = .search) (hv : u.visible = false) :
    (stepUpdate m ai u).state = .search := by
  obtain ⟨s, t, lk, wps, idx⟩ := ai
  cases hai
  simp only [stepUpdate, updateAIState, hv, Bool.false_eq_true, if_false]
  split <;> rfl

/-- A run of invisible ticks keeps a search state in search. -/
theorem runUpdates_search_stays (m : MathFns) (us : List UpdateIn) :
    ∀ ai : EnemyAIState, ai.state = .search → (∀ u ∈ us, u.visible = false) →
      (runUpdates m ai us).state = .search := by
  induction us with
  | nil => intro ai hai _; exact hai
  | cons u us ih =>
      intro ai hai hvis
      have h1 : (stepUpdate m ai u).state = .search :=
        search_step_stays m ai u hai (hvis u (List.mem_cons_self u us))
      exact ih (stepUpdate m ai u) h1 (fun v hv => hvis v (List.mem_cons_of_mem u hv))

/-- Claim C2: from a search state, with visibility false throughout, the
machine never reaches idle (every prefix of the run is still in search),
and a tick on which the accumulated timer reaches the 5s search duration
stays in search, resets the timer, installs a regenerated 4-element
waypoint set and resets the waypoint index to 0. -/
theorem search_never_idle (m : MathFns) (ai : EnemyAIState)
    (hai : ai.state = .search) (us : List UpdateIn)
    (hvis : ∀ u ∈ us, u.visible = false) :
    (∀ p q, us = p ++ q → (runUpdates m ai p).state = .search) ∧
    (∀ u : UpdateIn, u.visible = false → 5 ≤ ai.stateTimer + u.delta →
      (stepUpdate m ai u).state = .search ∧
      (stepUpdate m ai u).stateTimer = 0 ∧
      (stepUpdate m ai u).searchWaypoints.length = 4 ∧
      (stepUpdate m ai u).currentWaypointIndex = 0) := by
  constructor
  · intro p q hpq
    subst hpq
    exact runUpdates_search_stays m p ai hai
      (fun v hv => hvis v (List.mem_append_left q hv))
  · intro u hv hle
    obtain ⟨s, t, lk, wps, idx⟩ := ai
    cases hai
    simp only [EnemyAIState.stateTimer] at hle
    simp [stepUpdate, updateAIState, hv, SEARCH_DURATION, hle,
      generateSearchWaypoints_length]

/-- Witness for C2: a concrete expired search tick with no visibility. -/
theorem search_never_idle_witness :
    (runUpdates mQ aiSearchT [uInvis]).state = .search ∧
    (stepUpdate mQ aiSearchT uInvis).currentWaypointIndex = 0 := by
  have hvis : ∀ u ∈ [uInvis], u.visible = false := by
    intro u hu
    rw [List.mem_singleton] at hu
    subst hu
    rfl
  have h := search_never_idle mQ aiSearchT rfl [uInvis] hvis
  exact ⟨h.1 [uInvis] [] rfl,
    (h.2 uInvis rfl (by norm_num [aiSearchT, uInvis])).2.2.2⟩

/-- Claim C4: an update tick whose visibility signal is false and which
does not transition into search (its result is in search only if the
machine already was) leaves lastKnownPlayerPos unchanged. -/
theorem lastKnown_only_visible_or_search_entry (m : MathFns) (rnd : RandomSrc)
    (ai : EnemyAIState) (visible : Bool) (playerPos : Vec3) (delta : ℚ)
    (playerVel : Vec3) (hv : visible = false)
    (hns : (updateAIState m rnd ai visible playerPos delta playerVel).state = .search →
      ai.state = .search) :
    (updateAIState m rnd ai visible playerPos delta playerVel).lastKnownPlayerPos =
      ai.lastKnownPlayerPos := by
  obtain ⟨s, t, lk, wps, idx⟩ := ai
  subst hv
  cases s
  · rfl
  · exact absurd (hns rfl) (by simp)
  · exact absurd (hns rfl) (by simp)
  · simp only [updateAIState, Bool.false_eq_true, if_false]
    split <;> rfl

/-- Witness for C4: a concrete invisible idle tick keeps the stored
last-known position. -/
theorem lastKnown_only_visible_or_search_entry_witness :
    (updateAIState mQ rndHalf createAIState false ⟨9, 9, 9⟩ (1/10) Vec3.zero).lastKnownPlayerPos =
      createAIState.lastKnownPlayerPos :=
  lastKnown_only_visible_or_search_entry mQ rndHalf createAIState false ⟨9, 9, 9⟩
    (1/10) Vec3.zero rfl (by intro h; cases h)

/-- The initial AI state satisfies the structural invariant. -/
theorem invAI_createAIState : InvAI createAIState := by
  simp [InvAI, createAIState]

/-- updateAIState preserves the structural invariant. -/
theorem invAI_stepUpdate (m : MathFns) (ai : EnemyAIState) (u : UpdateIn)
    (h : InvAI ai) : InvAI (stepUpdate m ai u) := by
  obtain ⟨s, t, lk, wps, idx⟩ := ai
  obtain ⟨h1, h2⟩ := h
  simp only [InvAI] at *
  cases s <;> cases hv : u.visible <;>
    simp_all [stepUpdate, updateAIState, generateSearchWaypoints_length] <;>
    split_ifs <;>
    simp_all [generateSearchWaypoints_length]

/-- getMovementTarget preserves the structural invariant. -/
theorem invAI_query (m : MathFns) (ai : EnemyAIState) (e p v : Vec3)
    (h : InvAI ai) : InvAI (getMovementTarget m ai e p v).2 := by
  obtain ⟨s, t, lk, wps, idx⟩ := ai
  obtain ⟨h1, h2⟩ := h
  simp only [InvAI] at *
  cases s <;> simp_all [getMovementTarget]
  have hlen : wps.length = 4 := by tauto
  split_ifs <;> simp_all [hlen]
  exact Nat.mod_lt _ (by norm_num)

/-- Every interleaving step preserves the structural invariant. -/
theorem invAI_stepEvent (m : MathFns) (ai : EnemyAIState) (e : AIEvent)
    (h : InvAI ai) : InvAI (stepEvent m ai e) := by
  cases e with
  | update u => exact invAI_stepUpdate m ai u h
  | query a b c => exact invAI_query m ai a b c h

/-- Every run of interleaved events from the initial state keeps the
structural invariant. -/
theorem invAI_runEvents (m : MathFns) (es : List AIEvent) :
    InvAI (runEvents m createAIState es) := by
  suffices h : ∀ ai, InvAI ai → InvAI (runEvents m ai es) from
    h createAIState invAI_createAIState
  induction es with
  | nil => intro ai hai; exact hai
  | cons e es ih =>
      intro ai hai
      exact ih (stepEvent m ai e) (invAI_stepEvent m ai e hai)

/-- Once the waypoint list has 4 entries and the index is in range, every
further step keeps both facts. -/
theorem len4_stepEvent (m : MathFns) (ai : EnemyAIState) (e : AIEvent)
    (h1 : ai.searchWaypoints.length = 4) (h2 : ai.currentWaypointIndex < 4) :
    (stepEvent m ai e).searchWaypoints.length = 4 ∧
    (stepEvent m ai e).currentWaypointIndex < 4 := by
  obtain ⟨s, t, lk, wps, idx⟩ := ai
  cases e with
  | update u =>
      cases s <;> cases hv : u.visible <;>
        simp_all [stepEvent, stepUpdate, updateAIState, generateSearchWaypoints_length] <;>
        split_ifs <;>
        simp_all [generateSearchWaypoints_length]
  | query a b c =>
      cases s <;> simp_all [stepEvent, getMovementTarget]
      split_ifs <;> simp_all
      exact Nat.mod_lt _ (by omega)

/-- Along any continuation, the 4-waypoint shape and index bound are
stable. -/
theorem len4_runEvents (m : MathFns) (es : List AIEvent) :
    ∀ ai : EnemyAIState, ai.searchWaypoints.length = 4 →
      ai.currentWaypointIndex < 4 →
      (runEvents m ai es).searchWaypoints.length = 4 ∧
      (runEvents m ai es).currentWaypointIndex < 4 := by
  induction es with
  | nil => intro ai h1 h2; exact ⟨h1, h2⟩
  | cons e es ih =>
      intro ai h1 h2
      obtain ⟨g1, g2⟩ := len4_stepEvent m ai e h1 h2
      exact ih (stepEvent m ai e) g1 g2

/-- Folding over an appended trace runs the two pieces in sequence. -/
theorem runEvents_append (m : MathFns) (ai : EnemyAIState)
    (p q : List AIEvent) :
    runEvents m ai (p ++ q) = runEvents m (runEvents m ai p) q := by
  simp [runEvents, List.foldl_append]

/-- Claim C3: once a run of interleaved updateAIState calls and
getMovementTarget queries has entered the search state, the waypoint list
has exactly 4 entries and currentWaypointIndex stays inside [0, 4) for
the rest of the run; moreover every generated set starts with the
last-known position projected along the normalised player velocity by
min(speed*2, 15) units (jittered when speed < 1), followed by three
waypoints on the radius-15 circle around the last-known position at
randomised angular steps of PI/1.5. -/
theorem search_waypoint_invariant (m : MathFns) (es p q : List AIEvent)
    (h : es = p ++ q)
    (hs : (runEvents m createAIState p).state = .search) :
    ((runEvents m createAIState es).searchWaypoints.length = 4 ∧
      (runEvents m createAIState es).currentWaypointIndex <
        (runEvents m createAIState es).searchWaypoints.length) ∧
    (∀ (rnd : RandomSrc) (pos vel : Vec3),
      (generateSearchWaypoints m rnd pos vel).head? =
        some (if vecLength m vel < 1 then
          (pos.add ((vecNormalize m vel).scale (min (vecLength m vel * 2) 15))).add
            ⟨(rnd.jitterX - 1/2) * 5, 0, (rnd.jitterZ - 1/2) * 5⟩
        else pos.add ((vecNormalize m vel).scale (min (vecLength m vel * 2) 15))) ∧
      ∀ j : ℕ, j ∈ [1, 2, 3] →
        (generateSearchWaypoints m rnd pos vel).getD j Vec3.zero =
          ⟨pos.x + m.cos ((j : ℚ) * (m.pi / (3/2)) + rnd.angle j) * 15, pos.y,
            pos.z + m.sin ((j : ℚ) * (m.pi / (3/2)) + rnd.angle j) * 15⟩) := by
  constructor
  · obtain ⟨h1, h2⟩ := invAI_runEvents m p
    have hlen : (runEvents m createAIState p).searchWaypoints.length = 4 := by
      rcases h1 with h1 | ⟨_, hne⟩
      · exact h1
      · exact absurd hs hne
    subst h
    rw [runEvents_append]
    obtain ⟨g1, g2⟩ := len4_runEvents m q _ hlen h2
    exact ⟨g1, by rw [g1]; exact g2⟩
  · intro rnd pos vel
    constructor
    · simp [generateSearchWaypoints]
    · intro j hj
      fin_cases hj <;>
        simp [generateSearchWaypoints, List.range_succ, mul_one] <;>
        norm_num

/-- Witness for C3: a concrete trace that enters search via alert, then
continues with a query and another invisible tick. -/
theorem search_waypoint_invariant_witness :
    (runEvents mQ createAIState pEvents).state = .search ∧
    ((runEvents mQ createAIState (pEvents ++ qEvents)).searchWaypoints.length = 4 ∧
      (runEvents mQ createAIState (pEvents ++ qEvents)).currentWaypointIndex <
        (runEvents mQ createAIState (pEvents ++ qEvents)).searchWaypoints.length) := by
  have hs : (runEvents mQ createAIState pEvents).state = .search := rfl
  exact ⟨hs, (search_waypoint_invariant mQ (pEvents ++ qEvents) pEvents qEvents
    rfl hs).1⟩

/-- A non-hitch, non-paused frame records the streamed velocity as the
last good velocity. -/
theorem playerFrame_records_lastGood (m : MathFns) (inp : PlayerIn)
    (hp : inp.isPaused = false) (hr : inp.refPresent = true)
    (hd : inp.delta ≤ 1/20) :
    (playerFrame m inp).lastGoodVelocity = inp.velocity := by
  have hd20 : inp.delta ≤ 20⁻¹ := by rw [one_div] at hd; exact hd
  simp [playerFrame, hp, hr, hd20]
  split_ifs <;> rfl

/-- A playing, unpaused frame always applies the computed torque. -/
theorem playerFrame_torque (m : MathFns) (inp : PlayerIn)
    (hp : inp.isPaused = false) (hr : inp.refPresent = true)
    (hg : inp.gameState = .playing) :
    (playerFrame m inp).torque = some (playerTorque m inp) := by
  simp [playerFrame, hp, hr, hg]

/-- With no keys held, grounded, and angular speed above the 0.1 cutoff,
the torque pipeline produces the braking counter torque. -/
theorem playerTorque_braking (m : MathFns) (inp : PlayerIn)
    (hk : inp.keys = noKeys) (hgr : inp.grounded = true)
    (hsp : 1/10 < vecLength m inp.angularVelocity) :
    playerTorque m inp =
      ⟨-inp.angularVelocity.x * 2, 0, -inp.angularVelocity.z * 2⟩ := by
  have hsp10 : (10 : ℚ)⁻¹ < vecLength m inp.angularVelocity := by
    rw [one_div] at hsp; exact hsp
  simp [playerTorque, hk, noKeys, hgr, hsp10, Vec3.lengthSq, Vec3.scale]

/-- Counterexample to C5 as stated: a hitch frame that follows a
non-hitch frame whose recorded velocity has a nonzero horizontal part
(z = 5) but a zero x component issues no velocity command at all, because
the restore guard tests only the x component of the stored vector. -/
theorem hitch_recovery_skipped_when_x_zero :
    (playerFrame mQ pNonHitchIn).lastGoodVelocity = pHitchIn.lastGoodVelocity ∧
    pHitchIn.lastGoodVelocity = ⟨0, 3, 5⟩ ∧
    pHitchIn.lastGoodVelocity.z ≠ 0 ∧
    (1/20 : ℚ) < pHitchIn.delta ∧
    (playerFrame mQ pHitchIn).velocitySets = [] := by
  have h1 : (playerFrame mQ pNonHitchIn).lastGoodVelocity = pHitchIn.lastGoodVelocity := by
    rw [playerFrame_records_lastGood mQ pNonHitchIn rfl rfl
      (by norm_num [pNonHitchIn, basePlayerIn])]
    rfl
  refine ⟨h1, rfl, by norm_num [pHitchIn, basePlayerIn],
    by norm_num [pHitchIn, basePlayerIn], ?_⟩
  norm_num [playerFrame, pHitchIn, basePlayerIn]

/-- Claim C5 (amended): a hitch frame immediately following a non-hitch
frame whose recorded last-good velocity has a NONZERO X COMPONENT sets
the velocity to the recorded horizontal components while keeping the
current vertical component. -/
theorem hitch_recovery_restores_horizontal (m : MathFns)
    (inp1 inp2 : PlayerIn)
    (h1p : inp1.isPaused = false) (h1r : inp1.refPresent = true)
    (h1d : inp1.delta ≤ 1/20)
    (h2p : inp2.isPaused = false) (h2r : inp2.refPresent = true)
    (h2d : 1/20 < inp2.delta)
    (hlg : inp2.lastGoodVelocity = (playerFrame m inp1).lastGoodVelocity)
    (hx : inp1.velocity.x ≠ 0)
    (hg : inp2.gameState = .playing)
    (hy : -20 ≤ inp2.position.y) :
    (playerFrame m inp2).velocitySets =
      [⟨inp1.velocity.x, inp2.velocity.y, inp1.velocity.z⟩] := by
  rw [playerFrame_records_lastGood m inp1 h1p h1r h1d] at hlg
  have hnf : ¬(inp2.position.y < -20) := not_lt.mpr hy
  have h2d20 : (20 : ℚ)⁻¹ < inp2.delta := by rw [one_div] at h2d; exact h2d
  simp [playerFrame, h2p, h2r, hg, h2d20, hlg, hx, hnf]

/-- Witness for the amended C5 at concrete frames. -/
theorem hitch_recovery_restores_horizontal_witness :
    (playerFrame mQ pHitchIn2).velocitySets = [⟨2, -2, 5⟩] := by
  have hlg : pHitchIn2.lastGoodVelocity =
      (playerFrame mQ pNonHitchIn2).lastGoodVelocity := by
    rw [playerFrame_records_lastGood mQ pNonHitchIn2 rfl rfl
      (by norm_num [pNonHitchIn2, basePlayerIn])]
    rfl
  have h := hitch_recovery_restores_horizontal mQ pNonHitchIn2 pHitchIn2
    rfl rfl (by norm_num [pNonHitchIn2, basePlayerIn])
    rfl rfl (by norm_num [pHitchIn2, basePlayerIn])
    hlg (by norm_num [pNonHitchIn2, basePlayerIn])
    rfl (by norm_num [pHitchIn2, basePlayerIn])
  exact h

/-- Counterexample to C6 as stated: coasting while grounded with angular
speed 1 purely about the vertical axis, the braking block synthesises the
zero torque, whose dot product with the angular velocity is 0, not
negative. -/
theorem braking_zero_on_vertical_spin :
    (1/10 : ℚ) < vecLength mQ pSpinYIn.angularVelocity ∧
    pSpinYIn.keys = noKeys ∧
    pSpinYIn.grounded = true ∧
    (playerFrame mQ pSpinYIn).torque = some Vec3.zero ∧
    ¬(Vec3.dot Vec3.zero pSpinYIn.angularVelocity < 0) := by
  have hsp : (1/10 : ℚ) < vecLength mQ pSpinYIn.angularVelocity := by
    norm_num [vecLength, mQ, Vec3.lengthSq, pSpinYIn, basePlayerIn, sqrtQ_one]
  refine ⟨hsp, rfl, rfl, ?_, by norm_num [Vec3.dot, Vec3.zero]⟩
  have ht := playerTorque_braking mQ pSpinYIn rfl rfl hsp
  have hz : playerTorque mQ pSpinYIn = Vec3.zero := by
    rw [ht]; norm_num [pSpinYIn, basePlayerIn, Vec3.zero]
  rw [playerFrame_torque mQ pSpinYIn rfl rfl rfl, hz]

/-- Claim C6 (amended): coasting while grounded with angular speed above
0.1 AND a nonzero HORIZONTAL angular velocity component, the frame
applies the braking torque (-2*wx, 0, -2*wz), which is nonzero and whose
dot product with the angular velocity is strictly negative. -/
theorem braking_opposes_horizontal_spin (m : MathFns) (inp : PlayerIn)
    (hp : inp.isPaused = false) (hr : inp.refPresent = true)
    (hg : inp.gameState = .playing) (hk : inp.keys = noKeys)
    (hgr : inp.grounded = true)
    (hsp : 1/10 < vecLength m inp.angularVelocity)
    (hxz : inp.angularVelocity.x ≠ 0 ∨ inp.angularVelocity.z ≠ 0) :
    (playerFrame m inp).torque =
      some ⟨-inp.angularVelocity.x * 2, 0, -inp.angularVelocity.z * 2⟩ ∧
    (⟨-inp.angularVelocity.x * 2, 0, -inp.angularVelocity.z * 2⟩ : Vec3) ≠
      Vec3.zero ∧
    Vec3.dot ⟨-inp.angularVelocity.x * 2, 0, -inp.angularVelocity.z * 2⟩
      inp.angularVelocity < 0 := by
  refine ⟨?_, ?_, ?_⟩
  · rw [playerFrame_torque m inp hp hr hg, playerTorque_braking m inp hk hgr hsp]
  · intro hzero
    rw [Vec3.mk.injEq] at hzero
    rcases hxz with hx | hz
    · exact hx (by simpa [Vec3.zero] using hzero.1)
    · exact hz (by simpa [Vec3.zero] using hzero.2.2)
  · have hd : Vec3.dot ⟨-inp.angularVelocity.x * 2, 0, -inp.angularVelocity.z * 2⟩
        inp.angularVelocity =
        -(2 * (inp.angularVelocity.x * inp.angularVelocity.x +
          inp.angularVelocity.z * inp.angularVelocity.z)) := by
      simp [Vec3.dot]; ring
    rw [hd]
    rcases hxz with hx | hz
    · nlinarith [mul_self_pos.mpr hx, mul_self_nonneg inp.angularVelocity.z]
    · nlinarith [mul_self_pos.mpr hz, mul_self_nonneg inp.angularVelocity.x]

/-- Witness for the amended C6 at a concrete frame. -/
theorem braking_opposes_horizontal_spin_witness :
    (playerFrame mQ pSpinXZIn).torque = some ⟨-6, 0, -8⟩ ∧
    Vec3.dot ⟨-6, 0, -8⟩ pSpinXZIn.angularVelocity < 0 := by
  have hsp : (1/10 : ℚ) < vecLength mQ pSpinXZIn.angularVelocity := by
    norm_num [vecLength, mQ, Vec3.lengthSq, pSpinXZIn, basePlayerIn, sqrtQ_25]
  have h := braking_opposes_horizontal_spin mQ pSpinXZIn rfl rfl rfl rfl rfl hsp
    (Or.inl (by norm_num [pSpinXZIn, basePlayerIn]))
  have hvec : (⟨-pSpinXZIn.angularVelocity.x * 2, 0,
      -pSpinXZIn.angularVelocity.z * 2⟩ : Vec3) = ⟨-6, 0, -8⟩ := by
    norm_num [pSpinXZIn, basePlayerIn]
  refine ⟨?_, ?_⟩
  · rw [h.1, hvec]
  · have hd := h.2.2
    rw [hvec] at hd
    exact hd

/-- Claim C7: the enemy velocity cap fires exactly when the squared
velocity magnitude exceeds MAX_VELOCITY * MAX_VELOCITY with
MAX_VELOCITY = 25 units/s; it then commands the velocity with x and z
scaled by 0.95 and y untouched (a soft cap: the commanded value is a
fixed 5% reduction, never a clamp to an exact maximum), and issues no
velocity command otherwise. -/
theorem enemy_velocity_soft_cap (m : MathFns) (inp : EnemyIn)
    (hp : inp.isPaused = false) (hg : inp.gameState = .playing)
    (hr : inp.refsPresent = true) (hy : -20 ≤ inp.position.y) :
    (25 * 25 < inp.velocity.lengthSq →
      (enemyFrame m inp).velocitySets =
        [⟨inp.velocity.x * (19/20), inp.velocity.y, inp.velocity.z * (19/20)⟩]) ∧
    (inp.velocity.lengthSq ≤ 25 * 25 →
      (enemyFrame m inp).velocitySets = []) := by
  have hnf : ¬(inp.position.y < -20) := not_lt.mpr hy
  constructor
  · intro hcap
    simp [enemyFrame, hp, hg, hr, hcap, hnf]
  · intro hle
    have hnc : ¬(25 * 25 < inp.velocity.lengthSq) := not_lt.mpr hle
    simp [enemyFrame, hp, hg, hr, hnc, hnf]

/-- Witness for C7: a 35 units/s frame is softly scaled (y untouched), a
6 units/s frame is left alone even though its squared magnitude exceeds
25. -/
theorem enemy_velocity_soft_cap_witness :
    (enemyFrame mQ eCapHighIn).velocitySets = [⟨19/2, 15, 57/2⟩] ∧
    (25 : ℚ) < eCapLowIn.velocity.lengthSq ∧
    (enemyFrame mQ eCapLowIn).velocitySets = [] := by
  have h1 := (enemy_velocity_soft_cap mQ eCapHighIn rfl rfl rfl
    (by norm_num [eCapHighIn, baseEnemyIn, Vec3.zero])).1
    (by norm_num [eCapHighIn, baseEnemyIn, Vec3.lengthSq])
  have h2 := (enemy_velocity_soft_cap mQ eCapLowIn rfl rfl rfl
    (by norm_num [eCapLowIn, baseEnemyIn, Vec3.zero])).2
    (by norm_num [eCapLowIn, baseEnemyIn, Vec3.lengthSq])
  refine ⟨?_, by norm_num [eCapLowIn, baseEnemyIn, Vec3.lengthSq], h2⟩
  rw [h1]
  norm_num [eCapHighIn, baseEnemyIn]

/-- Counterexample to C9 as stated: with the enemy below the floor the
frame teleports it to the spawn point and zeroes the linear velocity, but
issues NO angular velocity command. -/
theorem enemy_reset_keeps_angular_velocity :
    eFallIn.position.y < -20 ∧
    (enemyFrame mQ eFallIn).positionSets = [⟨10, 20, 10⟩] ∧
    (enemyFrame mQ eFallIn).velocitySets = [Vec3.zero] ∧
    (enemyFrame mQ eFallIn).angularVelocitySets = [] := by
  refine ⟨by norm_num [eFallIn, baseEnemyIn], ?_, ?_, ?_⟩ <;>
    norm_num [enemyFrame, eFallIn, baseEnemyIn, Vec3.lengthSq, Vec3.zero]

/-- Claim C9 (amended): below the -20 world floor, the player frame
teleports to (0,5,0) and zeroes both linear and angular velocity, while
the enemy frame teleports to (10,20,10) and zeroes only the linear
velocity (its reset issues no angular velocity command). -/
theorem floor_reset_commands (m : MathFns) (pin : PlayerIn) (ein : EnemyIn)
    (hpp : pin.isPaused = false) (hpr : pin.refPresent = true)
    (hpg : pin.gameState = .playing) (hpy : pin.position.y < -20)
    (hep : ein.isPaused = false) (her : ein.refsPresent = true)
    (heg : ein.gameState = .playing) (hey : ein.position.y < -20) :
    ((playerFrame m pin).positionSets = [⟨0, 5, 0⟩] ∧
      (playerFrame m pin).velocitySets.getLast? = some Vec3.zero ∧
      (playerFrame m pin).angularVelocitySets = [Vec3.zero]) ∧
    ((enemyFrame m ein).positionSets = [⟨10, 20, 10⟩] ∧
      (enemyFrame m ein).velocitySets.getLast? = some Vec3.zero ∧
      (enemyFrame m ein).angularVelocitySets = []) := by
  refine ⟨⟨?_, ?_, ?_⟩, ⟨?_, ?_, ?_⟩⟩
  · simp [playerFrame, hpp, hpr, hpg, hpy]
  · simp [playerFrame, hpp, hpr, hpg, hpy, List.getLast?_concat]
  · simp [playerFrame, hpp, hpr, hpg, hpy]
  · simp [enemyFrame, hep, her, heg, hey]
  · simp [enemyFrame, hep, her, heg, hey, List.getLast?_concat]
  · simp [enemyFrame, hep, her, heg, hey]

/-- Witness for the amended C9 at concrete frames below the floor. -/
theorem floor_reset_commands_witness :
    (playerFrame mQ pFallIn).positionSets = [⟨0, 5, 0⟩] ∧
    (enemyFrame mQ eFallIn).positionSets = [⟨10, 20, 10⟩] := by
  have h := floor_reset_commands mQ pFallIn eFallIn rfl rfl rfl
    (by norm_num [pFallIn, basePlayerIn]) rfl rfl rfl
    (by norm_num [eFallIn, baseEnemyIn])
  exact ⟨h.1.1, h.2.1⟩

/-- Claim C8 (code divergence): at distance 20, which is below the
configured solid distance of 50 (the Settings tunable audioSolidDistance
that the spec calls the configurable solid threshold, which the
updateSonar parameter record does not even carry), the engine still runs
the STANDARD falloff branch - ping style, quadratic-falloff pitch
3604/3 and no nextBeepTime rearm - because the near-field override
compares against the hardcoded constant 10.  Within the hardcoded branch
the pitch does ramp linearly upward as distance shrinks: 1800 at
distance 4 versus 1600 at distance 8. -/
theorem solid_threshold_hardcoded :
    updateSonar sonarMgrOn 20 1 defaultSonarSettings none 0 =
      { oscTypeSet := some .sine
        freqTarget := some (3604/3, 1/10)
        gainTarget := some (169/450, 1/10)
        gainCancelled := false
        nextBeepTimeSet := none } ∧
    (updateSonar sonarMgrOn 4 1 defaultSonarSettings none 0).freqTarget =
      some (1800, 1/20) ∧
    (updateSonar sonarMgrOn 8 1 defaultSonarSettings none 0).freqTarget =
      some (1600, 1/20) ∧
    (1600 : ℚ) < 1800 := by
  refine ⟨?_, ?_, ?_, by norm_num⟩ <;>
    norm_num [updateSonar, sonarMgrOn, defaultSonarSettings, sonarNoop]

/-- Claim C10: with the enabled flag down, updateSonar issues no command
at all for every input; but the GameLogic per-frame audio block invokes
updateListener on the soundManager singleton, a method the SoundManager
class never defines, so the per-frame dispatch fails (a TypeError in JS)
on every playing frame. -/
theorem audio_soft_disable_and_missing_method :
    (∀ (d c : ℚ) (s : SonarSettings) (dm : Option SonarDebugMode) (now : ℚ),
      updateSonar ⟨false, true, true, true⟩ d c s dm now = sonarNoop) ∧
    gameLogicFrameFatal = true := by
  constructor
  · intro d c s dm now
    rfl
  · rfl

end Marble
